import Mathlib

/-!
Verification of the `anibridge-providers` package (shallow embedding).

Embedded modules:
* `anibridge_providers/registry.py` — `ProviderKind`, `ProviderDescriptor`,
  `ProviderRegistry` (register/get/require/available), the lazily constructed
  global registry, and `load_entry_points`.
* `anibridge_providers/loader.py` — `load_object` / `load_module`.

Python strings are Lean `String`s; Python dicts keyed by
`(ProviderKind, str)` are association lists with insert-or-replace-in-place
semantics (Python dicts keep the original insertion position on overwrite,
and `list(d.values())` enumerates in insertion order).  Provider classes are
an arbitrary type parameter `α` (only their identity matters to the
registry).  Exceptions are `Except` errors carrying the message the Python
code formats.
-/

/-- A single-quote character as a string (used by the Python f-string
messages, which quote namespaces and kinds). -/
def sQuote : String := String.mk [Char.ofNat 39]

/-- Embedding of Python `str.lower()` as used by
`ProviderDescriptor.__post_init__` and `ProviderRegistry.get`
(registry.py lines 43 and 77). -/
def strLower (s : String) : String := String.mk (s.data.map Char.toLower)

/-- Embedding of `ProviderKind` (registry.py lines 26-30): kinds of
providers supported by AniBridge. -/
inductive ProviderKind where
  | LIBRARY
  | LIST
deriving DecidableEq, Repr

/-- The `str` value of each `ProviderKind` member (`ProviderKind` is a
`str`-valued enum: LIBRARY = "library", LIST = "list"). -/
def ProviderKind.value : ProviderKind → String
  | .LIBRARY => "library"
  | .LIST => "list"

/-- Embedding of the dataclass `ProviderDescriptor` (registry.py lines
33-43).  `nspace` stands for the Python field `namespace` (a reserved word
in Lean); `provider_cls` is the registered provider class, of abstract type
`α`. -/
structure ProviderDescriptor (α : Type) where
  nspace : String
  kind : ProviderKind
  provider_cls : α
deriving DecidableEq, Repr

/-- Constructing a `ProviderDescriptor` runs `__post_init__`, which
normalizes the namespace to lowercase (registry.py lines 41-43). -/
def mkProviderDescriptor (nspace : String) (kind : ProviderKind) (provider_cls : α) :
    ProviderDescriptor α :=
  ⟨strLower nspace, kind, provider_cls⟩

/-- Python-dict insertion on an association list: overwriting an existing
key keeps its original position, a new key is appended. -/
def dictInsert [DecidableEq κ] (key : κ) (v : β) : List (κ × β) → List (κ × β)
  | [] => [(key, v)]
  | (k', v') :: rest =>
    if k' = key then (key, v) :: rest else (k', v') :: dictInsert key v rest

/-- Python-dict lookup (`d.get(key)`) on an association list. -/
def dictGet [DecidableEq κ] (key : κ) : List (κ × β) → Option β
  | [] => none
  | (k', v') :: rest => if k' = key then some v' else dictGet key rest

/-- Embedding of the dataclass `ProviderRegistry` (registry.py lines
46-102): providers keyed by `(kind, namespace)`. -/
structure ProviderRegistry (α : Type) where
  _providers : List ((ProviderKind × String) × ProviderDescriptor α)
deriving DecidableEq, Repr

/-- The default `ProviderRegistry()` with an empty dict
(`field(default_factory=dict)`, registry.py lines 50-52). -/
def emptyRegistry (α : Type) : ProviderRegistry α := ⟨[]⟩

/-- Embedding of `ProviderRegistry.register` (registry.py lines 54-65):
store the descriptor under `(descriptor.kind, descriptor.namespace)`,
replacing any previous value, and return the descriptor. -/
def ProviderRegistry.register (r : ProviderRegistry α) (descriptor : ProviderDescriptor α) :
    ProviderRegistry α × ProviderDescriptor α :=
  (⟨dictInsert (descriptor.kind, descriptor.nspace) descriptor r._providers⟩, descriptor)

/-- Embedding of `ProviderRegistry.get` (registry.py lines 67-77): look up
`(kind, namespace.lower())`, returning `none` when absent. -/
def ProviderRegistry.get (r : ProviderRegistry α) (kind : ProviderKind) (nspace : String) :
    Option (ProviderDescriptor α) :=
  dictGet (kind, strLower nspace) r._providers

/-- The `KeyError` message formatted by `ProviderRegistry.require`
(registry.py lines 91-93). -/
def providerNotRegisteredMsg (kind : ProviderKind) (nspace : String) : String :=
  "Provider " ++ sQuote ++ nspace ++ sQuote ++ " of kind " ++ sQuote ++ kind.value ++ sQuote
    ++ " is not registered"

/-- Embedding of `ProviderRegistry.require` (registry.py lines 79-94):
`get`, then raise `KeyError` naming namespace and kind when absent. -/
def ProviderRegistry.require (r : ProviderRegistry α) (kind : ProviderKind) (nspace : String) :
    Except String (ProviderDescriptor α) :=
  match r.get kind nspace with
  | none => .error (providerNotRegisteredMsg kind nspace)
  | some descriptor => .ok descriptor

/-- Embedding of `ProviderRegistry.available` (registry.py lines 96-102):
`list(self._providers.values())` in insertion order. -/
def ProviderRegistry.available (r : ProviderRegistry α) : List (ProviderDescriptor α) :=
  r._providers.map (·.2)

/-- The keys of an association list, in order. -/
def dictKeys (l : List (κ × β)) : List κ := l.map (·.1)

/-- How many entries of a key list equal a given key. -/
def countKey [DecidableEq κ] (key : κ) (l : List κ) : Nat :=
  l.countP (fun k => decide (k = key))

/-- A registry has at most one descriptor per `(kind, namespace)` key iff
its underlying key list has no duplicates. -/
def ProviderRegistry.NodupKeys (r : ProviderRegistry α) : Prop :=
  (dictKeys r._providers).Nodup

/-- A Python object as the attribute resolver sees it: a bag of named
attributes (`hasattr` / `getattr`, loader.py lines 37-40).  Modules are
`PyObj`s as well. -/
inductive PyObj where
  | mk (attrs : List (String × PyObj))

/-- Attribute lookup on an attribute list. -/
def lookupAttr : List (String × PyObj) → String → Option PyObj
  | [], _ => none
  | (k, v) :: rest, nm => if k = nm then some v else lookupAttr rest nm

/-- Python `getattr(obj, name)` (returning `none` exactly when
`hasattr(obj, name)` is false). -/
def PyObj.getattr : PyObj → String → Option PyObj
  | .mk attrs, nm => lookupAttr attrs nm

/-- Exceptions raised by loader.py: `ValueError` with a message (both the
malformed-path and attribute-not-found cases, loader.py lines 23-37) and
`ImportError` from `importlib.import_module`. -/
inductive PyError where
  | valueError (msg : String)
  | importError (modulePath : String)
deriving DecidableEq, Repr

/-- Message of loader.py line 24. -/
def fmtErrMsg : String :=
  "Import path must be in " ++ sQuote ++ "module:qualname" ++ sQuote ++ " format"

/-- Message of loader.py line 28. -/
def partsErrMsg : String := "Both module and attribute names are required"

/-- Message of loader.py lines 36-37 (names the missing segment and the
original reference). -/
def attrErrMsg (attr import_path : String) : String :=
  "Attribute " ++ sQuote ++ attr ++ sQuote ++ " not found while resolving "
    ++ sQuote ++ import_path ++ sQuote

/-- Message of loader.py line 53. -/
def emptyModuleMsg : String := "Module path cannot be empty"

/-- Split a character list at the first occurrence of `sep`; `none` when
`sep` does not occur.  `some` answers embody Python
`sep in s` / `s.split(sep, 1)` (loader.py lines 23-26). -/
def splitOnceAux (sep : Char) : List Char → Option (List Char × List Char)
  | [] => none
  | c :: rest =>
    if c = sep then some ([], rest)
    else (splitOnceAux sep rest).map (fun p => (c :: p.1, p.2))

/-- Python `s.split(sep, 1)` for a single-character separator, with the
`sep in s` membership test folded in (`none` = separator absent). -/
def splitOnce (sep : Char) (s : String) : Option (String × String) :=
  (splitOnceAux sep s.data).map (fun p => (String.mk p.1, String.mk p.2))

/-- Helper for `splitDots`: current segment accumulated in reverse. -/
def splitDotsAux : List Char → List Char → List String
  | [], acc => [String.mk acc.reverse]
  | c :: rest, acc =>
    if c = '.' then String.mk acc.reverse :: splitDotsAux rest []
    else splitDotsAux rest (c :: acc)

/-- Python `qualname.split(".")` (loader.py line 33): every maximal run
between dots, keeping empty segments, and `[""]` on the empty string. -/
def splitDots (s : String) : List String := splitDotsAux s.data []

/-- The `for attr in qualname.split(".")` loop of loader.py lines 33-38:
walk the attribute path, failing with the attribute-not-found `ValueError`
at the first missing segment. -/
def resolveAttrs (import_path : String) : PyObj → List String → Except PyError PyObj
  | obj, [] => .ok obj
  | obj, attr :: rest =>
    match obj.getattr attr with
    | none => .error (.valueError (attrErrMsg attr import_path))
    | some next => resolveAttrs import_path next rest

/-- Embedding of `load_object` (loader.py lines 6-40).  `env` stands for
`importlib.import_module`: the loadable modules of the running process
(`none` = `ImportError`). -/
def load_object (env : String → Option PyObj) (import_path : String) : Except PyError PyObj :=
  match splitOnce ':' import_path with
  | none => .error (.valueError fmtErrMsg)
  | some (module_path, qualname) =>
    if module_path = "" ∨ qualname = "" then .error (.valueError partsErrMsg)
    else
      match env module_path with
      | none => .error (.importError module_path)
      | some m => resolveAttrs import_path m (splitDots qualname)

/-- Embedding of `load_module` (loader.py lines 43-55): import and return a
module by dotted path, rejecting the empty path. -/
def load_module (env : String → Option PyObj) (module_path : String) : Except PyError PyObj :=
  if module_path = "" then .error (.valueError emptyModuleMsg)
  else
    match env module_path with
    | none => .error (.importError module_path)
    | some m => .ok m

/-- The two messages loader.py raises for a malformed reference, both
raised before any module import is attempted (the spec calls this the
invalid-reference failure). -/
def IsInvalidReference (e : PyError) : Prop :=
  e = .valueError fmtErrMsg ∨ e = .valueError partsErrMsg

/-- Pure left-to-right attribute walk (the behaviour the spec describes):
`some` iff every segment exists on the object resolved so far. -/
def attrChain : PyObj → List String → Option PyObj
  | obj, [] => some obj
  | obj, attr :: rest =>
    match obj.getattr attr with
    | none => none
    | some next => attrChain next rest

/-- Example attribute object for the resolver round-trip: distinguishable
from the container and the class holding it. -/
def exTarget : PyObj := .mk [("marker", .mk [])]

/-- Example container exposing `Class.attr` (the spec's round-trip
example). -/
def exContainer : PyObj := .mk [("Class", .mk [("attr", exTarget)])]

/-- Example import environment where only `pkg.mod` is importable. -/
def exEnv : String → Option PyObj := fun s => if s = "pkg.mod" then some exContainer else none

/-- Example import environment where only `pkg` is importable, as an empty
module. -/
def exEnvPkg : String → Option PyObj := fun s => if s = "pkg" then some (PyObj.mk []) else none

/-- Outcome of calling a loaded entry-point object with a given argument
shape: normal return (with its effect on the registry it was handed),
`TypeError`, or any other exception.  Registration functions mutate the
process-global registry, so a normal return is a registry transformer. -/
inductive CallOutcome (α : Type) where
  | ok (f : ProviderRegistry α → ProviderRegistry α)
  | typeError
  | raises

/-- How a loaded callable behaves when invoked as `obj(registry)` and as
`obj()` (registry.py lines 200-204). -/
structure CallableBehavior (α : Type) where
  withRegistryArg : CallOutcome α
  withNoArg : CallOutcome α

/-- The `PROVIDER_KIND` class attribute as `getattr(obj, "PROVIDER_KIND",
None)` plus `isinstance(kind_value, ProviderKind)` see it (registry.py
lines 208-209): absent, an actual `ProviderKind` member, or some other
value. -/
inductive KindAttr where
  | absent
  | providerKind (k : ProviderKind)
  | nonKindValue
deriving DecidableEq, Repr

/-- A class object as `load_entry_points` inspects it: its display name
(used in the warning f-string), its optional `NAMESPACE` class attribute,
its `PROVIDER_KIND` attribute, and the class itself. -/
structure ClassObj (α : Type) where
  clsName : String
  namespaceAttr : Option String
  kindAttr : KindAttr
  cls : α

/-- An object returned by `entry_point.load()`.  In Python every class is
callable (`callable(cls)` is true, since classes are instances of `type`
and `type` defines `__call__`), so a class object also carries the
behaviour of calling it — constructing an instance. -/
inductive LoadedObj (α : Type) where
  | callableObj (c : CallableBehavior α)
  | classObj (t : ClassObj α) (c : CallableBehavior α)
  | plainObj

/-- Python `callable(obj)` (registry.py line 200): true for plain
callables and for every class. -/
def LoadedObj.isCallable : LoadedObj α → Bool
  | .callableObj _ => true
  | .classObj _ _ => true
  | .plainObj => false

/-- Python `isinstance(obj, type)` (registry.py line 205). -/
def LoadedObj.isType : LoadedObj α → Bool
  | .classObj _ _ => true
  | _ => false

/-- The calling behaviour of a callable object. -/
def LoadedObj.callableBehavior? : LoadedObj α → Option (CallableBehavior α)
  | .callableObj c => some c
  | .classObj _ c => some c
  | .plainObj => none

/-- An entry point of the scanned group: its declared name and the result
of `entry_point.load()` (`none` = the load raised). -/
structure EntryPoint (α : Type) where
  name : String
  loadResult : Option (LoadedObj α)

/-- What `load_entry_points` logs: `_LOG.exception` calls for entry-point
load failures (registry.py line 197) and `_LOG.warning` messages
(lines 210 and 214). -/
structure LoaderLog where
  loadFailureCount : Nat
  warningMsgs : List String
deriving DecidableEq, Repr

/-- Record one `_LOG.exception("Failed to load provider entry point ...")`. -/
def logLoadFailure (l : LoaderLog) : LoaderLog :=
  ⟨l.loadFailureCount + 1, l.warningMsgs⟩

/-- Record one `_LOG.warning(...)` message. -/
def logWarning (l : LoaderLog) (msg : String) : LoaderLog :=
  ⟨l.loadFailureCount, l.warningMsgs ++ [msg]⟩

/-- The warning of registry.py line 210, naming the class. -/
def missingKindWarning (clsName : String) : String :=
  "Provider class " ++ sQuote ++ clsName ++ sQuote ++ " missing PROVIDER_KIND; skipping"

/-- The warning of registry.py lines 214-217, naming the entry point. -/
def unsupportedWarning (epName : String) : String :=
  "Entry point " ++ sQuote ++ epName ++ sQuote ++ " returned unsupported object"

/-- An exception escaping `load_entry_points` to its caller. -/
inductive LoaderExc where
  | typeError
  | otherException
deriving DecidableEq, Repr

/-- The callable branch of registry.py lines 200-204:
`obj(get_global_registry())`, retrying as `obj()` on `TypeError`; any
other exception (and a `TypeError` from the retry) propagates. -/
def invokeCallable (c : CallableBehavior α) (reg : ProviderRegistry α) :
    Except LoaderExc (ProviderRegistry α) :=
  match c.withRegistryArg with
  | .ok f => .ok (f reg)
  | .raises => .error .otherException
  | .typeError =>
    match c.withNoArg with
    | .ok g => .ok (g reg)
    | .raises => .error .otherException
    | .typeError => .error .typeError

/-- Embedding of `_register_kind` (registry.py lines 120-132): build a
descriptor (normalizing the namespace) and register it, here threaded
through the global registry state. -/
def _register_kind (kind : ProviderKind) (nspace : String) (provider_cls : α)
    (reg : ProviderRegistry α) : ProviderRegistry α :=
  (reg.register (mkProviderDescriptor nspace kind provider_cls)).1

/-- The `elif isinstance(obj, type)` branch of registry.py lines 205-212:
infer the namespace from `NAMESPACE` falling back to the entry-point name,
then register when `PROVIDER_KIND` is a `ProviderKind` member, else warn
naming the class and skip. -/
def classBranch (epName : String) (t : ClassObj α) (st : ProviderRegistry α × LoaderLog) :
    ProviderRegistry α × LoaderLog :=
  let nspace := t.namespaceAttr.getD epName
  match t.kindAttr with
  | .providerKind k => (_register_kind k nspace t.cls st.1, st.2)
  | _ => (st.1, logWarning st.2 (missingKindWarning t.clsName))

/-- One iteration of the `for entry_point in selected` loop of
`load_entry_points` (registry.py lines 193-218).  Note that
`LoadedObj.isCallable` is true for `classObj`, so a class-style entry point
is handled by the callable branch and the `isType` branch is
unreachable — exactly as in Python, where `callable(obj)` is true for
every class. -/
def processEntryPoint (ep : EntryPoint α) (st : ProviderRegistry α × LoaderLog) :
    Except LoaderExc (ProviderRegistry α × LoaderLog) :=
  match ep.loadResult with
  | none => .ok (st.1, logLoadFailure st.2)
  | some obj =>
    if obj.isCallable then
      match obj.callableBehavior? with
      | some c =>
        match invokeCallable c st.1 with
        | .error e => .error e
        | .ok reg => .ok (reg, st.2)
      | none => .ok st
    else if obj.isType then
      match obj with
      | .classObj t _ => .ok (classBranch ep.name t st)
      | _ => .ok st
    else
      .ok (st.1, logWarning st.2 (unsupportedWarning ep.name))

/-- Embedding of `load_entry_points` (registry.py lines 184-218) over the
selected entry points, threading the global registry and the log; an
escaping exception aborts the remaining scan. -/
def load_entry_points :
    List (EntryPoint α) → ProviderRegistry α × LoaderLog →
      Except LoaderExc (ProviderRegistry α × LoaderLog)
  | [], st => .ok st
  | ep :: rest, st =>
    match processEntryPoint ep st with
    | .error e => .error e
    | .ok st' => load_entry_points rest st'

/-- An entry point whose processing never raises past the loader. -/
def NoRaise (ep : EntryPoint α) : Prop :=
  ∀ st, ∃ st', processEntryPoint ep st = .ok st'

/-- Example class-style entry point: a provider class with
`NAMESPACE = "MyNS"` and `PROVIDER_KIND = ProviderKind.LIBRARY`;
constructing it with a positional registry argument raises `TypeError`
(`BaseProvider.__init__` is keyword-only) and constructing it with no
arguments succeeds without touching the registry. -/
def exClassEp : EntryPoint Nat :=
  ⟨"myns", some (.classObj ⟨"MyProvider", some "MyNS", .providerKind .LIBRARY, 7⟩
    ⟨.typeError, .ok id⟩)⟩

/-- Example class-style entry point with no `PROVIDER_KIND` attribute. -/
def exBadClassEp : EntryPoint Nat :=
  ⟨"ns", some (.classObj ⟨"BadProvider", none, .absent, 3⟩ ⟨.typeError, .ok id⟩)⟩

/-- The process state relevant to `get_global_registry` (registry.py lines
105-117): every `ProviderRegistry` instance ever constructed by the module
(identified by its allocation index) and the module global
`_GLOBAL_REGISTRY` as an optional index into that list. -/
structure GlobalEnv (α : Type) where
  instances : List (ProviderRegistry α)
  globalRef : Option Nat

/-- Process start: `_GLOBAL_REGISTRY = None`, no instance constructed. -/
def initGlobalEnv (α : Type) : GlobalEnv α := ⟨[], none⟩

/-- Embedding of `get_global_registry` (registry.py lines 108-117): on
first access construct a fresh `ProviderRegistry()` and store it in
`_GLOBAL_REGISTRY`; afterwards return the stored instance.  The returned
`Nat` is the identity (allocation index) of the returned instance. -/
def get_global_registry : GlobalEnv α → GlobalEnv α × Nat
  | ⟨insts, none⟩ => (⟨insts ++ [emptyRegistry α], some insts.length⟩, insts.length)
  | ⟨insts, some i⟩ => (⟨insts, some i⟩, i)

/-- Operations interleaved with accessor calls: a `get_global_registry`
call, or any in-place registry operation (`register` and friends) on an
existing instance.  No operation deallocates an instance — the module has
no teardown. -/
inductive RegOp (α : Type) where
  | getGlobal
  | mutateInstance (i : Nat) (f : ProviderRegistry α → ProviderRegistry α)

/-- In-place update of the `i`-th allocated instance. -/
def modifyAt : List β → Nat → (β → β) → List β
  | [], _, _ => []
  | x :: rest, 0, f => f x :: rest
  | x :: rest, n + 1, f => x :: modifyAt rest n f

/-- Apply one operation, returning the index an accessor call returned
(if the operation was one). -/
def applyOp (env : GlobalEnv α) : RegOp α → GlobalEnv α × Option Nat
  | .getGlobal =>
    ((get_global_registry env).1, some (get_global_registry env).2)
  | .mutateInstance i f => (⟨modifyAt env.instances i f, env.globalRef⟩, none)

/-- Run a sequence of operations from a state, collecting every index the
accessor returned. -/
def runOps : List (RegOp α) → GlobalEnv α → GlobalEnv α × List Nat
  | [], env => (env, [])
  | op :: rest, env =>
    ((runOps rest (applyOp env op).1).1,
      (applyOp env op).2.toList ++ (runOps rest (applyOp env op).1).2)

/-- Reachable global states: either the registry was never accessed (no
instance), or it was and exactly one instance exists, referenced by the
global. -/
def GoodEnv (env : GlobalEnv α) : Prop :=
  (env.globalRef = none ∧ env.instances = [])
    ∨ (env.globalRef = some 0 ∧ env.instances.length = 1)

theorem dictGet_dictInsert_self [DecidableEq κ] (key : κ) (v : β) (l : List (κ × β)) :
    dictGet key (dictInsert key v l) = some v := by
  induction l with
  | nil => simp [dictInsert, dictGet]
  | cons hd tl ih =>
    by_cases h : hd.1 = key
    · simp [dictInsert, dictGet, h]
    · simpa [dictInsert, dictGet, h] using ih

theorem dictKeys_dictInsert [DecidableEq κ] (key : κ) (v : β) (l : List (κ × β)) :
    dictKeys (dictInsert key v l) =
      if key ∈ dictKeys l then dictKeys l else dictKeys l ++ [key] := by
  induction l with
  | nil => simp [dictInsert, dictKeys]
  | cons hd tl ih =>
    by_cases h : hd.1 = key
    · simp [dictInsert, dictKeys, h]
    · have hne : key ≠ hd.1 := fun hc => h hc.symm
      simp only [dictKeys, List.map_cons] at ih ⊢
      by_cases hmem : key ∈ tl.map (·.1)
      · rw [if_pos hmem] at ih
        simp [dictInsert, h, hne, hmem, ih]
      · rw [if_neg hmem] at ih
        simp [dictInsert, h, hne, hmem, ih]

theorem key_mem_dictInsert [DecidableEq κ] (key : κ) (v : β) (l : List (κ × β)) :
    key ∈ dictKeys (dictInsert key v l) := by
  rw [dictKeys_dictInsert]
  by_cases h : key ∈ dictKeys l <;> simp [h]

theorem length_dictInsert_of_mem [DecidableEq κ] (key : κ) (v : β) (l : List (κ × β))
    (h : key ∈ dictKeys l) : (dictInsert key v l).length = l.length := by
  have hk := dictKeys_dictInsert key v l
  rw [if_pos h] at hk
  have h1 : (dictInsert key v l).length = (dictKeys (dictInsert key v l)).length := by
    simp [dictKeys]
  have h2 : l.length = (dictKeys l).length := by simp [dictKeys]
  rw [h1, hk, h2]

theorem nodup_dictKeys_dictInsert [DecidableEq κ] (key : κ) (v : β) (l : List (κ × β))
    (h : (dictKeys l).Nodup) : (dictKeys (dictInsert key v l)).Nodup := by
  rw [dictKeys_dictInsert]
  by_cases hmem : key ∈ dictKeys l
  · simpa [hmem] using h
  · rw [if_neg hmem]
    refine List.Nodup.append h (List.nodup_singleton key) ?_
    intro a ha hb
    rw [List.mem_singleton] at hb
    exact hmem (hb ▸ ha)

/-- Claim C1: for every kind, namespace string, and implementation class,
`register` with a descriptor built from them followed by `get(kind, ns)`
returns a descriptor whose kind and implementation are the given ones and
whose namespace is the lowercased input namespace, regardless of the casing
used at construction or lookup (any lookup string with the same lowercase
form succeeds). -/
theorem c1_register_then_get (α : Type) (kind : ProviderKind) (nsIn nsLookup : String)
    (cls : α) (r : ProviderRegistry α)
    (hcase : strLower nsLookup = strLower nsIn) :
    ((r.register (mkProviderDescriptor nsIn kind cls)).1.get kind nsLookup
        = some (mkProviderDescriptor nsIn kind cls))
    ∧ (mkProviderDescriptor nsIn kind cls).kind = kind
    ∧ (mkProviderDescriptor nsIn kind cls).provider_cls = cls
    ∧ (mkProviderDescriptor nsIn kind cls).nspace = strLower nsIn := by
  refine ⟨?_, rfl, rfl, rfl⟩
  unfold ProviderRegistry.get ProviderRegistry.register
  simp only [mkProviderDescriptor]
  rw [hcase]
  exact dictGet_dictInsert_self _ _ _

/-- Witness for C1 at a concrete mixed-case input. -/
theorem c1_register_then_get_witness :
    strLower "MYPROV" = strLower "MyProv" ∧
    ((emptyRegistry Nat).register
        (mkProviderDescriptor "MyProv" ProviderKind.LIBRARY 0)).1.get ProviderKind.LIBRARY "MYPROV"
      = some (mkProviderDescriptor "MyProv" ProviderKind.LIBRARY 0) :=
  ⟨by decide,
    (c1_register_then_get Nat ProviderKind.LIBRARY "MyProv" "MYPROV" 0 (emptyRegistry Nat)
      (by decide)).1⟩

/-- Claim C2: on any registry whose key list is duplicate-free, registering
a second descriptor at the same `(kind, namespace)` key leaves exactly one
descriptor visible at that key, equal to the second registration
(last-write-wins, no error), leaves the length of `available()` unchanged,
and preserves the at-most-one-descriptor-per-key invariant. -/
theorem c2_last_write_wins (α : Type) (r : ProviderRegistry α)
    (d1 d2 : ProviderDescriptor α) (hnd : r.NodupKeys)
    (hkind : d1.kind = d2.kind) (hns : d1.nspace = d2.nspace) :
    (dictGet (d2.kind, d2.nspace) (((r.register d1).1.register d2).1)._providers = some d2)
    ∧ (countKey (d2.kind, d2.nspace) (dictKeys (((r.register d1).1.register d2).1)._providers) = 1)
    ∧ (((r.register d1).1.register d2).1.available.length = (r.register d1).1.available.length)
    ∧ ((r.register d1).1.register d2).1.NodupKeys := by
  have hkey : (d1.kind, d1.nspace) = (d2.kind, d2.nspace) := by rw [hkind, hns]
  unfold ProviderRegistry.register ProviderRegistry.available ProviderRegistry.NodupKeys at *
  simp only [] at *
  rw [hkey]
  have hins : (d2.kind, d2.nspace) ∈ dictKeys (dictInsert (d2.kind, d2.nspace) d1 r._providers) :=
    key_mem_dictInsert _ _ _
  have hnd1 : (dictKeys (dictInsert (d2.kind, d2.nspace) d1 r._providers)).Nodup :=
    nodup_dictKeys_dictInsert _ _ _ hnd
  have hnd2 : (dictKeys (dictInsert (d2.kind, d2.nspace) d2
      (dictInsert (d2.kind, d2.nspace) d1 r._providers))).Nodup :=
    nodup_dictKeys_dictInsert _ _ _ hnd1
  refine ⟨dictGet_dictInsert_self _ _ _, ?_, ?_, hnd2⟩
  · have hc := List.count_eq_one_of_mem hnd2
      (key_mem_dictInsert (d2.kind, d2.nspace) d2 (dictInsert (d2.kind, d2.nspace) d1 r._providers))
    simpa [countKey, List.count, List.countP, instBEqOfDecidableEq] using hc
  · simpa using length_dictInsert_of_mem _ d2 _ hins

/-- Witness for C2 at a concrete double registration. -/
theorem c2_last_write_wins_witness :
    dictGet ((mkProviderDescriptor "x" ProviderKind.LIBRARY (2 : Nat)).kind,
        (mkProviderDescriptor "x" ProviderKind.LIBRARY (2 : Nat)).nspace)
      ((((emptyRegistry Nat).register
          (mkProviderDescriptor "X" ProviderKind.LIBRARY 1)).1.register
          (mkProviderDescriptor "x" ProviderKind.LIBRARY 2)).1)._providers
      = some (mkProviderDescriptor "x" ProviderKind.LIBRARY 2) :=
  (c2_last_write_wins Nat (emptyRegistry Nat)
    (mkProviderDescriptor "X" ProviderKind.LIBRARY 1)
    (mkProviderDescriptor "x" ProviderKind.LIBRARY 2)
    (by simp [ProviderRegistry.NodupKeys, emptyRegistry, dictKeys]) (by decide) (by decide)).1

/-- Claim C4: when no descriptor is registered at the lowercased key,
`require(kind, namespace)` fails with the provider-not-registered error
naming both the kind and the namespace, while `get` on the same input
returns `none` without failing; when a descriptor is present, `require`
returns it. -/
theorem c4_require_vs_get (α : Type) (r : ProviderRegistry α) (kind : ProviderKind)
    (nspace : String) :
    (r.get kind nspace = none →
      r.require kind nspace
        = .error ("Provider " ++ sQuote ++ nspace ++ sQuote ++ " of kind " ++ sQuote
            ++ kind.value ++ sQuote ++ " is not registered"))
    ∧ (∀ d, r.get kind nspace = some d → r.require kind nspace = .ok d) := by
  constructor
  · intro h
    simp [ProviderRegistry.require, h, providerNotRegisteredMsg]
  · intro d h
    simp [ProviderRegistry.require, h]

/-- Witness for C4: `require` on an empty registry errors with the message
naming kind and namespace, and returns the descriptor once registered. -/
theorem c4_require_vs_get_witness :
    ((emptyRegistry Nat).require ProviderKind.LIST "foo"
      = .error ("Provider " ++ sQuote ++ "foo" ++ sQuote ++ " of kind " ++ sQuote
          ++ ProviderKind.LIST.value ++ sQuote ++ " is not registered"))
    ∧ (((emptyRegistry Nat).register (mkProviderDescriptor "foo" ProviderKind.LIST 5)).1.require
        ProviderKind.LIST "foo"
      = .ok (mkProviderDescriptor "foo" ProviderKind.LIST 5)) :=
  ⟨(c4_require_vs_get Nat (emptyRegistry Nat) ProviderKind.LIST "foo").1 rfl,
    (c4_require_vs_get Nat
        ((emptyRegistry Nat).register (mkProviderDescriptor "foo" ProviderKind.LIST 5)).1
        ProviderKind.LIST "foo").2
      (mkProviderDescriptor "foo" ProviderKind.LIST 5) (by decide)⟩

theorem splitOnceAux_append (sep : Char) (l1 l2 : List Char) (h : sep ∉ l1) :
    splitOnceAux sep (l1 ++ sep :: l2) = some (l1, l2) := by
  induction l1 with
  | nil => simp [splitOnceAux]
  | cons c rest ih =>
    have hc : c ≠ sep := fun hc => h (hc ▸ List.mem_cons_self c rest)
    have hrest : sep ∉ rest := fun hr => h (List.mem_cons_of_mem c hr)
    simp [splitOnceAux, hc, ih hrest]

theorem splitOnce_append (mp qn : String) (h : ':' ∉ mp.data) :
    splitOnce ':' (mp ++ ":" ++ qn) = some (mp, qn) := by
  have hdata : (mp ++ ":" ++ qn).data = mp.data ++ ':' :: qn.data := by
    simp [String.data_append]
  unfold splitOnce
  rw [hdata, splitOnceAux_append ':' mp.data qn.data h]
  rfl

theorem resolveAttrs_of_attrChain (import_path : String) (o res : PyObj) (segs : List String)
    (h : attrChain o segs = some res) : resolveAttrs import_path o segs = .ok res := by
  induction segs generalizing o with
  | nil =>
    simp [attrChain] at h
    simp [resolveAttrs, h]
  | cons a rest ih =>
    unfold attrChain at h
    unfold resolveAttrs
    cases hg : o.getattr a with
    | none => rw [hg] at h; exact absurd h (by simp)
    | some next => rw [hg] at h; exact ih next h

theorem resolveAttrs_first_missing (import_path : String) (o m : PyObj) (a : String)
    (pre post : List String) (hpre : attrChain o pre = some m) (hmiss : m.getattr a = none) :
    resolveAttrs import_path o (pre ++ a :: post)
      = .error (.valueError (attrErrMsg a import_path)) := by
  induction pre generalizing o with
  | nil =>
    simp [attrChain] at hpre
    subst hpre
    simp [resolveAttrs, hmiss]
  | cons b rest ih =>
    unfold attrChain at hpre
    cases hg : o.getattr b with
    | none => rw [hg] at hpre; exact absurd hpre (by simp)
    | some next =>
      rw [hg] at hpre
      simpa [resolveAttrs, hg] using ih next hpre

theorem resolveAttrs_error_shape (import_path : String) (o : PyObj) (segs : List String)
    (e : PyError) (h : resolveAttrs import_path o segs = .error e) :
    ∃ a, e = .valueError (attrErrMsg a import_path) := by
  induction segs generalizing o with
  | nil => simp [resolveAttrs] at h
  | cons a rest ih =>
    unfold resolveAttrs at h
    cases hg : o.getattr a with
    | none =>
      rw [hg] at h
      exact ⟨a, by simpa using h.symm⟩
    | some next =>
      rw [hg] at h
      exact ih next h

theorem attrErrMsg_head (a p : String) : (attrErrMsg a p).data.head? = some 'A' := by
  simp [attrErrMsg, String.data_append]

theorem attrErrMsg_not_invalid (a p : String) :
    ¬ IsInvalidReference (.valueError (attrErrMsg a p)) := by
  intro h
  rcases h with h | h
  · have hd : (attrErrMsg a p).data.head? = fmtErrMsg.data.head? :=
      congrArg (fun s => s.data.head?) (PyError.valueError.inj h)
    rw [attrErrMsg_head] at hd
    exact absurd hd (by decide)
  · have hd : (attrErrMsg a p).data.head? = partsErrMsg.data.head? :=
      congrArg (fun s => s.data.head?) (PyError.valueError.inj h)
    rw [attrErrMsg_head] at hd
    exact absurd hd (by decide)

/-- Claim C5: for a well-formed reference `mp ++ ":" ++ qn` whose container
loads successfully, the resolver walks the dot-separated qualified name
left to right: when every segment exists it returns the final resolved
object, and when a segment is missing on the object resolved so far it
fails with the attribute-not-found error naming that segment and the
original reference (never stopping early or skipping the missing
segment). -/
theorem c5_resolver_walk (env : String → Option PyObj) (mp qn : String) (c : PyObj)
    (hmp : mp ≠ "") (hqn : qn ≠ "") (hnc : ':' ∉ mp.data) (henv : env mp = some c) :
    (∀ res, attrChain c (splitDots qn) = some res →
      load_object env (mp ++ ":" ++ qn) = .ok res)
    ∧ (∀ pre a post m, splitDots qn = pre ++ a :: post →
        attrChain c pre = some m → m.getattr a = none →
        load_object env (mp ++ ":" ++ qn)
          = .error (.valueError (attrErrMsg a (mp ++ ":" ++ qn)))) := by
  have hsplit := splitOnce_append mp qn hnc
  have hcase : ¬ (mp = "" ∨ qn = "") := by
    rintro (h | h)
    · exact hmp h
    · exact hqn h
  constructor
  · intro res hchain
    simp only [load_object, hsplit, hcase, if_false, henv]
    exact resolveAttrs_of_attrChain _ _ _ _ hchain
  · intro pre a post m hsegs hpre hmiss
    simp only [load_object, hsplit, hcase, if_false, henv]
    rw [hsegs]
    exact resolveAttrs_first_missing _ _ _ _ _ _ hpre hmiss

/-- Witness for C5: resolving `pkg.mod:Class.attr` against a container
exposing `Class.attr` yields exactly that attribute object, and after
removing `attr` the same reference fails with attribute-not-found naming
`attr`. -/
theorem c5_resolver_walk_witness :
    load_object exEnv "pkg.mod:Class.attr" = .ok exTarget
    ∧ load_object (fun s => if s = "pkg.mod" then some (.mk [("Class", .mk [])]) else none)
        "pkg.mod:Class.attr"
      = .error (.valueError (attrErrMsg "attr" "pkg.mod:Class.attr")) :=
  ⟨(c5_resolver_walk exEnv "pkg.mod" "Class.attr" exContainer (by decide) (by decide)
      (by decide) rfl).1 exTarget rfl,
    (c5_resolver_walk (fun s => if s = "pkg.mod" then some (.mk [("Class", .mk [])]) else none)
      "pkg.mod" "Class.attr" (.mk [("Class", .mk [])]) (by decide) (by decide)
      (by decide) rfl).2 ["Class"] "attr" [] (.mk []) rfl rfl rfl⟩

/-- Claim C6: `load_object` fails with an invalid-reference `ValueError`
exactly when the `:` separator is missing or either side of it is empty —
for every import environment, so before any module load is attempted — and
`load_module` fails with the same kind of `ValueError` exactly when its
path is empty. -/
theorem c6_invalid_reference_iff (env : String → Option PyObj) (s p : String) :
    ((∃ e, load_object env s = .error e ∧ IsInvalidReference e) ↔
      (splitOnce ':' s = none
        ∨ ∃ a b, splitOnce ':' s = some (a, b) ∧ (a = "" ∨ b = "")))
    ∧ (load_module env p = .error (.valueError emptyModuleMsg) ↔ p = "") := by
  constructor
  · constructor
    · rintro ⟨e, he, hinv⟩
      cases hs : splitOnce ':' s with
      | none => exact Or.inl rfl
      | some pair =>
        obtain ⟨a, b⟩ := pair
        refine Or.inr ⟨a, b, rfl, ?_⟩
        by_contra hab
        simp only [load_object, hs, hab, if_false] at he
        cases henv : env a with
        | none =>
          rw [henv] at he
          have : e = .importError a := by simpa using he.symm
          subst this
          rcases hinv with h | h <;> exact absurd h (by simp)
        | some m =>
          rw [henv] at he
          obtain ⟨attr, rfl⟩ := resolveAttrs_error_shape _ _ _ _ he
          exact attrErrMsg_not_invalid _ _ hinv
    · rintro (hs | ⟨a, b, hs, hab⟩)
      · exact ⟨_, by simp [load_object, hs], Or.inl rfl⟩
      · exact ⟨_, by simp [load_object, hs, hab], Or.inr rfl⟩
  · constructor
    · intro h
      by_contra hp
      simp only [load_module, hp, if_false] at h
      cases henv : env p with
      | none =>
        rw [henv] at h
        simp at h
      | some m =>
        rw [henv] at h
        simp at h
    · intro h
      subst h
      simp [load_module]

/-- Witness for C6 at the spec's three rejected references and the empty
module path. -/
theorem c6_invalid_reference_iff_witness :
    (∃ e, load_object exEnv "nocolon" = .error e ∧ IsInvalidReference e)
    ∧ (∃ e, load_object exEnv ":name" = .error e ∧ IsInvalidReference e)
    ∧ (∃ e, load_object exEnv "mod:" = .error e ∧ IsInvalidReference e)
    ∧ load_module exEnv "" = .error (.valueError emptyModuleMsg) :=
  ⟨(c6_invalid_reference_iff exEnv "nocolon" "").1.mpr (Or.inl (by decide)),
    (c6_invalid_reference_iff exEnv ":name" "").1.mpr
      (Or.inr ⟨"", "name", by decide, Or.inl rfl⟩),
    (c6_invalid_reference_iff exEnv "mod:" "").1.mpr
      (Or.inr ⟨"mod", "", by decide, Or.inr rfl⟩),
    (c6_invalid_reference_iff exEnv "nocolon" "").2.mpr rfl⟩

/-- Claim C10: a reference with further `:` characters after the first is
not an invalid reference: `load_object` splits at the first `:` and treats
everything after it as the qualified name, so it can only fail later
(import error or attribute-not-found on a segment containing `:`). -/
theorem c10_extra_colons_accepted (env : String → Option PyObj) (mp rest : String)
    (hmp : mp ≠ "") (hnc : ':' ∉ mp.data) (hrest : rest ≠ "") (_hcol : ':' ∈ rest.data) :
    (∀ e, load_object env (mp ++ ":" ++ rest) = .error e → ¬ IsInvalidReference e)
    ∧ load_object env (mp ++ ":" ++ rest)
      = (match env mp with
         | none => .error (.importError mp)
         | some m => resolveAttrs (mp ++ ":" ++ rest) m (splitDots rest)) := by
  have hsplit := splitOnce_append mp rest hnc
  have hcase : ¬ (mp = "" ∨ rest = "") := by
    rintro (h | h)
    · exact hmp h
    · exact hrest h
  constructor
  · intro e he hinv
    simp only [load_object, hsplit, hcase, if_false] at he
    cases henv : env mp with
    | none =>
      rw [henv] at he
      have : e = .importError mp := by simpa using he.symm
      subst this
      rcases hinv with h | h <;> exact absurd h (by simp)
    | some m =>
      rw [henv] at he
      obtain ⟨attr, rfl⟩ := resolveAttrs_error_shape _ _ _ _ he
      exact attrErrMsg_not_invalid _ _ hinv
  · simp only [load_object, hsplit, hcase, if_false]

/-- Witness for C10: `pkg:a:b` passes the syntactic checks and fails only
as attribute-not-found on the segment `a:b`. -/
theorem c10_extra_colons_accepted_witness :
    load_object exEnvPkg "pkg:a:b" = .error (.valueError (attrErrMsg "a:b" "pkg:a:b"))
    ∧ ¬ IsInvalidReference (.valueError (attrErrMsg "a:b" "pkg:a:b")) :=
  ⟨rfl,
    (c10_extra_colons_accepted exEnvPkg "pkg" "a:b" (by decide) (by decide) (by decide)
      (by decide)).1 _ rfl⟩

theorem load_entry_points_append (eps1 eps2 : List (EntryPoint α))
    (st : ProviderRegistry α × LoaderLog) :
    load_entry_points (eps1 ++ eps2) st
      = (match load_entry_points eps1 st with
         | .error e => .error e
         | .ok st' => load_entry_points eps2 st') := by
  induction eps1 generalizing st with
  | nil => simp [load_entry_points]
  | cons ep rest ih =>
    simp only [List.cons_append, load_entry_points]
    cases processEntryPoint ep st with
    | error e => rfl
    | ok st' => exact ih st'

theorem processEntryPoint_bump (ep : EntryPoint α) (st : ProviderRegistry α × LoaderLog) :
    processEntryPoint ep (st.1, logLoadFailure st.2)
      = (processEntryPoint ep st).map (fun p => (p.1, logLoadFailure p.2)) := by
  rcases st with ⟨reg, log⟩
  rcases ep with ⟨nm, lr⟩
  cases lr with
  | none => rfl
  | some obj =>
    cases obj with
    | callableObj c =>
      cases h : invokeCallable c reg <;>
        simp [processEntryPoint, LoadedObj.isCallable, LoadedObj.callableBehavior?, h, Except.map]
    | classObj t c =>
      cases h : invokeCallable c reg <;>
        simp [processEntryPoint, LoadedObj.isCallable, LoadedObj.callableBehavior?, h, Except.map]
    | plainObj => rfl

theorem load_entry_points_bump (eps : List (EntryPoint α))
    (st : ProviderRegistry α × LoaderLog) :
    load_entry_points eps (st.1, logLoadFailure st.2)
      = (load_entry_points eps st).map (fun p => (p.1, logLoadFailure p.2)) := by
  induction eps generalizing st with
  | nil => rfl
  | cons ep rest ih =>
    simp only [load_entry_points, processEntryPoint_bump]
    cases processEntryPoint ep st with
    | error e => rfl
    | ok st' => exact ih st'

theorem load_entry_points_ok_of_noRaise (eps : List (EntryPoint α))
    (h : ∀ ep ∈ eps, NoRaise ep) (st : ProviderRegistry α × LoaderLog) :
    ∃ st', load_entry_points eps st = .ok st' := by
  induction eps generalizing st with
  | nil => exact ⟨st, rfl⟩
  | cons ep rest ih =>
    obtain ⟨st1, h1⟩ := h ep (List.mem_cons_self ep rest) st
    obtain ⟨st2, h2⟩ := ih (fun e he => h e (List.mem_cons_of_mem ep he)) st1
    exact ⟨st2, by simp [load_entry_points, h1, h2]⟩

theorem processEntryPoint_count (ep : EntryPoint α) (o : LoadedObj α)
    (hload : ep.loadResult = some o) (st st' : ProviderRegistry α × LoaderLog)
    (h : processEntryPoint ep st = .ok st') :
    st'.2.loadFailureCount = st.2.loadFailureCount := by
  rcases ep with ⟨nm, lr⟩
  simp only at hload
  subst hload
  cases o with
  | callableObj c =>
    simp only [processEntryPoint, LoadedObj.isCallable, LoadedObj.callableBehavior?] at h
    cases hc : invokeCallable c st.1 with
    | error e => rw [hc] at h; exact absurd h (by simp)
    | ok reg =>
      rw [hc] at h
      simp at h
      rw [← h]
  | classObj t c =>
    simp only [processEntryPoint, LoadedObj.isCallable, LoadedObj.callableBehavior?] at h
    cases hc : invokeCallable c st.1 with
    | error e => rw [hc] at h; exact absurd h (by simp)
    | ok reg =>
      rw [hc] at h
      simp at h
      rw [← h]
  | plainObj =>
    simp only [processEntryPoint, LoadedObj.isCallable, LoadedObj.isType] at h
    simp at h
    rw [← h]
    rfl

theorem load_entry_points_count (eps : List (EntryPoint α))
    (hload : ∀ ep ∈ eps, ∃ o, ep.loadResult = some o)
    (st st' : ProviderRegistry α × LoaderLog)
    (h : load_entry_points eps st = .ok st') :
    st'.2.loadFailureCount = st.2.loadFailureCount := by
  induction eps generalizing st with
  | nil =>
    simp only [load_entry_points] at h
    simp at h
    rw [h]
  | cons ep rest ih =>
    simp only [load_entry_points] at h
    cases hp : processEntryPoint ep st with
    | error e => rw [hp] at h; exact absurd h (by simp)
    | ok st1 =>
      rw [hp] at h
      obtain ⟨o, ho⟩ := hload ep (List.mem_cons_self ep rest)
      have hc1 := processEntryPoint_count ep o ho st st1 hp
      have hc2 := ih (fun e he => hload e (List.mem_cons_of_mem ep he)) st1 h
      rw [hc2, hc1]

/-- Claim C3 counterexample: for a single entry point whose load succeeds
but whose loaded object is a callable that raises a non-`TypeError` when
invoked, the exception escapes `load_entry_points` — contradicting the
claim that no exception escapes the loader for a single-entry problem,
including callables that raise when invoked. -/
theorem c3_callable_raises_escapes :
    load_entry_points [EntryPoint.mk "bad" (some (.callableObj ⟨.raises, .raises⟩))]
      (emptyRegistry Nat, ⟨0, []⟩)
      = .error .otherException := rfl

/-- Claim C3 (amended): when exactly one entry's `entry_point.load()`
raises and every other entry loads and processes without raising, the
loader suppresses the failure: it returns normally, logs exactly one
additional load failure, and the final state is exactly the state the run
without the failing entry produces (so all other entries are processed and
registered as usual).  Exceptions raised by *invoking* a loaded callable
(other than a `TypeError`, which triggers the no-argument retry) are not
covered: they escape the loader, as the counterexample above shows. -/
theorem c3_one_load_failure_suppressed (α : Type) (pre post : List (EntryPoint α))
    (bad : EntryPoint α) (hbad : bad.loadResult = none)
    (hload : ∀ ep ∈ pre ++ post, ∃ o, ep.loadResult = some o)
    (hok : ∀ ep ∈ pre ++ post, NoRaise ep)
    (reg : ProviderRegistry α) (log : LoaderLog) :
    ∃ st', load_entry_points (pre ++ bad :: post) (reg, log) = .ok st'
      ∧ st'.2.loadFailureCount = log.loadFailureCount + 1
      ∧ load_entry_points (pre ++ post) (reg, logLoadFailure log) = .ok st' := by
  have hpreOK : ∀ ep ∈ pre, NoRaise ep :=
    fun ep he => hok ep (List.mem_append_left post he)
  have hpostOK : ∀ ep ∈ post, NoRaise ep :=
    fun ep he => hok ep (List.mem_append_right pre he)
  obtain ⟨st1, h1⟩ := load_entry_points_ok_of_noRaise pre hpreOK (reg, log)
  obtain ⟨st2, h2⟩ := load_entry_points_ok_of_noRaise post hpostOK st1
  have hbadstep : processEntryPoint bad st1 = .ok (st1.1, logLoadFailure st1.2) := by
    simp [processEntryPoint, hbad]
  refine ⟨(st2.1, logLoadFailure st2.2), ?_, ?_, ?_⟩
  · rw [load_entry_points_append, h1]
    simp only [load_entry_points, hbadstep]
    rw [load_entry_points_bump, h2]
    rfl
  · have hcpre : st1.2.loadFailureCount = log.loadFailureCount :=
      load_entry_points_count pre (fun ep he => hload ep (List.mem_append_left post he))
        (reg, log) st1 h1
    have hcpost : st2.2.loadFailureCount = st1.2.loadFailureCount :=
      load_entry_points_count post (fun ep he => hload ep (List.mem_append_right pre he))
        st1 st2 h2
    simp [logLoadFailure, hcpost, hcpre]
  · have hbump := load_entry_points_bump pre (reg, log)
    rw [show ((reg, log) : ProviderRegistry α × LoaderLog).1 = reg from rfl,
      show ((reg, log) : ProviderRegistry α × LoaderLog).2 = log from rfl] at hbump
    rw [load_entry_points_append, hbump, h1]
    simp only [Except.map]
    rw [load_entry_points_bump, h2]
    rfl

/-- Witness for the amended C3: one registering callable entry plus one
entry whose load fails; the loader returns normally with one failure
logged and the callable entry registered. -/
theorem c3_one_load_failure_suppressed_witness :
    ∃ st', load_entry_points
        [EntryPoint.mk "good"
          (some (.callableObj
            ⟨.ok (fun r => (r.register (mkProviderDescriptor "g" ProviderKind.LIBRARY 1)).1),
              .typeError⟩)),
          EntryPoint.mk "bad" none]
        (emptyRegistry Nat, ⟨0, []⟩) = .ok st'
      ∧ st'.2.loadFailureCount = 0 + 1
      ∧ load_entry_points
          [EntryPoint.mk "good"
            (some (.callableObj
              ⟨.ok (fun r => (r.register (mkProviderDescriptor "g" ProviderKind.LIBRARY 1)).1),
                .typeError⟩))]
          (emptyRegistry Nat, logLoadFailure ⟨0, []⟩) = .ok st' :=
  c3_one_load_failure_suppressed Nat
    [EntryPoint.mk "good"
      (some (.callableObj
        ⟨.ok (fun r => (r.register (mkProviderDescriptor "g" ProviderKind.LIBRARY 1)).1),
          .typeError⟩))]
    [] (EntryPoint.mk "bad" none) rfl
    (by
      intro ep he
      simp only [List.append_nil, List.mem_singleton] at he
      subst he
      exact ⟨_, rfl⟩)
    (by
      intro ep he
      simp only [List.append_nil, List.mem_singleton] at he
      subst he
      intro st
      exact ⟨_, rfl⟩)
    (emptyRegistry Nat) ⟨0, []⟩

/-- Claim C7 (code bug): a class-style entry point whose class carries a
recognized `PROVIDER_KIND` registers nothing.  Because `callable(obj)` is
true for every class, the loader takes the callable branch (instantiating
the class) and the `isinstance(obj, type)` branch with its
namespace-and-kind inference is unreachable; the registry is left
unchanged.  The third conjunct records what the unreachable branch would
have done — exactly what the claim (and the code comment on registry.py
line 206) describes. -/
theorem c7_class_entry_not_registered :
    load_entry_points [exClassEp] (emptyRegistry Nat, ⟨0, []⟩)
      = .ok (emptyRegistry Nat, ⟨0, []⟩)
    ∧ (emptyRegistry Nat).get ProviderKind.LIBRARY "MyNS" = none
    ∧ classBranch exClassEp.name
        ⟨"MyProvider", some "MyNS", .providerKind .LIBRARY, 7⟩ (emptyRegistry Nat, ⟨0, []⟩)
      = (((emptyRegistry Nat).register
          (mkProviderDescriptor "MyNS" ProviderKind.LIBRARY 7)).1, ⟨0, []⟩) :=
  ⟨rfl, rfl, rfl⟩

/-- Claim C8 (code bug): a class-style entry point missing a recognized
`PROVIDER_KIND` leaves the registry unchanged as claimed, but logs no
warning at all: the class is handled by the callable branch
(instantiated), so the warning of registry.py line 210 is never reached.
The second conjunct records the one warning the unreachable branch would
have logged, naming the class — what the claim describes. -/
theorem c8_missing_kind_no_warning :
    load_entry_points [exBadClassEp] (emptyRegistry Nat, ⟨0, []⟩)
      = .ok (emptyRegistry Nat, ⟨0, []⟩)
    ∧ classBranch exBadClassEp.name ⟨"BadProvider", none, .absent, 3⟩
        (emptyRegistry Nat, ⟨0, []⟩)
      = (emptyRegistry Nat, ⟨0, [missingKindWarning "BadProvider"]⟩) :=
  ⟨rfl, rfl⟩

theorem length_modifyAt (l : List β) (i : Nat) (f : β → β) :
    (modifyAt l i f).length = l.length := by
  induction l generalizing i with
  | nil => rfl
  | cons x rest ih =>
    cases i with
    | zero => rfl
    | succ n => simpa [modifyAt] using ih n

theorem applyOp_good (env : GlobalEnv α) (op : RegOp α) (h : GoodEnv env) :
    GoodEnv (applyOp env op).1 ∧ (∀ i, (applyOp env op).2 = some i → i = 0) := by
  cases op with
  | getGlobal =>
    rcases env with ⟨insts, ref⟩
    rcases h with ⟨h1, h2⟩ | ⟨h1, h2⟩
    · simp only at h1 h2
      subst h1; subst h2
      refine ⟨Or.inr ⟨rfl, rfl⟩, ?_⟩
      intro i hi
      simpa [applyOp, get_global_registry] using hi.symm
    · simp only at h1 h2
      subst h1
      refine ⟨Or.inr ⟨rfl, h2⟩, ?_⟩
      intro i hi
      simpa [applyOp, get_global_registry] using hi.symm
  | mutateInstance i f =>
    refine ⟨?_, by intro j hj; simp [applyOp] at hj⟩
    rcases h with ⟨h1, h2⟩ | ⟨h1, h2⟩
    · exact Or.inl ⟨h1, by simp [applyOp, h2, modifyAt]⟩
    · exact Or.inr ⟨h1, by simpa [applyOp, length_modifyAt] using h2⟩

theorem runOps_good (ops : List (RegOp α)) (env : GlobalEnv α) (h : GoodEnv env) :
    GoodEnv (runOps ops env).1 ∧ ∀ i ∈ (runOps ops env).2, i = 0 := by
  induction ops generalizing env with
  | nil => exact ⟨h, by simp [runOps]⟩
  | cons op rest ih =>
    obtain ⟨hg, hr⟩ := applyOp_good env op h
    obtain ⟨hg', hr'⟩ := ih (applyOp env op).1 hg
    refine ⟨hg', ?_⟩
    intro i hi
    simp only [runOps, List.mem_append] at hi
    rcases hi with hi | hi
    · cases hv : (applyOp env op).2 with
      | none => rw [hv] at hi; simp [Option.toList] at hi
      | some j =>
        rw [hv] at hi
        simp [Option.toList] at hi
        exact hi ▸ hr j hv
    · exact hr' i hi

theorem runOps_absorb (ops : List (RegOp α)) (env : GlobalEnv α)
    (href : env.globalRef = some 0) (hlen : env.instances.length = 1) :
    (runOps ops env).1.instances.length = 1 := by
  induction ops generalizing env with
  | nil => exact hlen
  | cons op rest ih =>
    cases op with
    | getGlobal =>
      rcases env with ⟨insts, ref⟩
      simp only at href
      subst href
      exact ih ⟨insts, some 0⟩ rfl hlen
    | mutateInstance i f =>
      exact ih _ href (by simpa [applyOp, length_modifyAt] using hlen)

theorem runOps_len_of_mem (ops : List (RegOp α)) (env : GlobalEnv α) (h : GoodEnv env)
    (hmem : (RegOp.getGlobal : RegOp α) ∈ ops) :
    (runOps ops env).1.instances.length = 1 := by
  induction ops generalizing env with
  | nil => simp at hmem
  | cons op rest ih =>
    rcases List.mem_cons.mp hmem with hop | hop
    · subst hop
      rcases h with ⟨h1, h2⟩ | ⟨h1, h2⟩
      · rcases env with ⟨insts, ref⟩
        simp only at h1 h2
        subst h1; subst h2
        exact runOps_absorb rest _ rfl rfl
      · rcases env with ⟨insts, ref⟩
        simp only at h1
        subst h1
        exact runOps_absorb rest _ rfl h2
    · exact ih (applyOp env op).1 (applyOp_good env op h).1 hop

theorem runOps_len_of_not_mem (ops : List (RegOp α)) (env : GlobalEnv α)
    (hmem : (RegOp.getGlobal : RegOp α) ∉ ops) :
    (runOps ops env).1.instances.length = env.instances.length := by
  induction ops generalizing env with
  | nil => rfl
  | cons op rest ih =>
    have hop : op ≠ RegOp.getGlobal := fun hc => hmem (hc ▸ List.mem_cons_self op rest)
    have hrest : (RegOp.getGlobal : RegOp α) ∉ rest :=
      fun hc => hmem (List.mem_cons_of_mem op hc)
    cases op with
    | getGlobal => exact absurd rfl hop
    | mutateInstance i f =>
      rw [show (runOps (RegOp.mutateInstance i f :: rest) env).1
          = (runOps rest (applyOp env (RegOp.mutateInstance i f)).1).1 from rfl]
      rw [ih _ hrest]
      simp [applyOp, length_modifyAt]

/-- Claim C9: starting from process start, for any sequence of accessor
calls and registry operations, every `get_global_registry` call returns
the identical instance (allocation index 0); the registry is lazily
constructed (no instance exists until the first call) and exactly one
`ProviderRegistry` instance ever exists once some call was made.  (There
is no teardown: `RegOp` has no deallocating operation.) -/
theorem c9_global_registry_singleton (α : Type) (ops : List (RegOp α)) :
    (∀ i ∈ (runOps ops (initGlobalEnv α)).2, i = 0)
    ∧ ((RegOp.getGlobal : RegOp α) ∈ ops →
        (runOps ops (initGlobalEnv α)).1.instances.length = 1)
    ∧ ((RegOp.getGlobal : RegOp α) ∉ ops →
        (runOps ops (initGlobalEnv α)).1.instances.length = 0) :=
  ⟨(runOps_good ops (initGlobalEnv α) (Or.inl ⟨rfl, rfl⟩)).2,
    fun hmem => runOps_len_of_mem ops (initGlobalEnv α) (Or.inl ⟨rfl, rfl⟩) hmem,
    fun hmem => runOps_len_of_not_mem ops (initGlobalEnv α) hmem⟩

/-- Witness for C9 at a concrete operation sequence: access, register a
descriptor on the returned instance, access again. -/
theorem c9_global_registry_singleton_witness :
    (∀ i ∈ (runOps
        [RegOp.getGlobal,
          RegOp.mutateInstance 0
            (fun r => (r.register (mkProviderDescriptor "n" ProviderKind.LIST 2)).1),
          RegOp.getGlobal] (initGlobalEnv Nat)).2, i = 0)
    ∧ (runOps
        [RegOp.getGlobal,
          RegOp.mutateInstance 0
            (fun r => (r.register (mkProviderDescriptor "n" ProviderKind.LIST 2)).1),
          RegOp.getGlobal] (initGlobalEnv Nat)).1.instances.length = 1 :=
  ⟨(c9_global_registry_singleton Nat
      [RegOp.getGlobal,
        RegOp.mutateInstance 0
          (fun r => (r.register (mkProviderDescriptor "n" ProviderKind.LIST 2)).1),
        RegOp.getGlobal]).1,
    (c9_global_registry_singleton Nat
      [RegOp.getGlobal,
        RegOp.mutateInstance 0
          (fun r => (r.register (mkProviderDescriptor "n" ProviderKind.LIST 2)).1),
        RegOp.getGlobal]).2.1 (List.mem_cons_self _ _)⟩
